import Mathlib

/-
Shallow embedding of the system-monitoring tool (src/Assignment1.c).

Machine reals (C long double) are modelled as exact rationals; C int and
long are modelled as unbounded integers (all concrete values involved are
far from any overflow boundary).  Fallible OS reads are modelled by Option
inputs: a read that the C code cannot perform is a none argument.  Where a
code path calls exit(), the embedded function returns none (its result
type is an Option), so a none result means the whole process terminates.
-/

namespace SysMonitor

/- ===================== CPU utilization tracker ======================
   src/Assignment1.c, calculate_cpu_utilization (lines 180-232).
   The function reads one line of /proc/stat into eight long doubles and
   keeps the previous totals through the two pointer arguments
   preTotalCPU / preIdleCPU.  finalTotalCPU / finalIdleCPU are pure
   out-parameters, so the state is just the pre pair. -/

structure CpuSnapshot where
  user : ℚ
  nice : ℚ
  system : ℚ
  idle : ℚ
  iowait : ℚ
  irq : ℚ
  softirq : ℚ
  steal : ℚ
deriving DecidableEq

def CpuSnapshot.total (s : CpuSnapshot) : ℚ :=
  s.user + s.nice + s.system + s.idle + s.iowait + s.irq + s.softirq + s.steal

def CpuSnapshot.idleTotal (s : CpuSnapshot) : ℚ :=
  s.idle + s.iowait

structure TrackerState where
  preTotalCPU : ℚ
  preIdleCPU : ℚ
deriving DecidableEq

/- Lines 203-231 with the lets of the source substituted:
   currentTotalCPU = s.total, currentIdleCPU = s.idleTotal,
   U_initial = preTotalCPU - preIdleCPU, U_final = total - idleTotal,
   delta_total = U_final - U_initial   (the busy-time delta),
   delta_idle  = currentTotalCPU - preTotalCPU   (the total-time delta;
   both names are misleading in the source but the arithmetic is exact).
   The stored pair is replaced by the current totals in every branch that
   passes the first-run test, including the degenerate zero-delta branch,
   because the source updates the pointers before the zero test. -/
def cpuUpdate (st : TrackerState) (s : CpuSnapshot) : TrackerState × ℚ :=
  if st.preTotalCPU = 0 ∧ st.preIdleCPU = 0 then
    (⟨s.total, s.idleTotal⟩, 0)
  else if (s.total - s.idleTotal) - (st.preTotalCPU - st.preIdleCPU) = 0 ∨
      s.total - st.preTotalCPU = 0 then
    (⟨s.total, s.idleTotal⟩, 0)
  else
    (⟨s.total, s.idleTotal⟩,
      ((s.total - s.idleTotal) - (st.preTotalCPU - st.preIdleCPU)) /
        (s.total - st.preTotalCPU) * 100)

/- The whole call including the /proc/stat read: a none read is the
   fopen failure branch (lines 186-190), which prints to stderr and
   returns 0 leaving the stored pair untouched. -/
def calculate_cpu_utilization (st : TrackerState) (read : Option CpuSnapshot) :
    TrackerState × ℚ :=
  match read with
  | none => (st, 0)
  | some s => cpuUpdate st s

/- ===================== memory reads =================================
   src/Assignment1.c, get_total_memory (lines 131-144) and
   calculate_memory_used (lines 244-254).  A SysinfoRead is the part of
   struct sysinfo the code uses; a none argument is a failing sysinfo
   call.  get_total_memory calls exit(1) when sysinfo fails, hence the
   none result there. -/

structure SysinfoRead where
  totalram : ℚ
  freeram : ℚ
  mem_unit : ℚ
deriving DecidableEq

def get_total_memory : Option SysinfoRead → Option ℚ
  | none => none
  | some info => some (info.totalram * info.mem_unit / (1024 * 1024 * 1024))

/- calculate_memory_used performs its own sysinfo call (failure returns 0,
   non-fatal) and then calls get_total_memory, whose sysinfo failure
   exits the process. -/
def calculate_memory_used (own : Option SysinfoRead) (forTotal : Option SysinfoRead) :
    Option ℚ :=
  match own with
  | none => some 0
  | some info =>
    match get_total_memory forTotal with
    | none => none
    | some t => some (t - info.freeram * info.mem_unit / (1024 * 1024 * 1024))

/- ===================== max frequency / cores ========================
   src/Assignment1.c, calculate_max_frequency (lines 266-286).  The read
   argument is none when fopen fails (the code prints to stderr and
   returns 0), some none when the file opens but fscanf does not parse a
   number (the code calls exit(1)), and some (some v) when a value v in
   kHz is parsed. -/

def calculate_max_frequency : Option (Option ℚ) → Option ℚ
  | none => some 0
  | some none => none
  | some (some v) => some (v / 1000000)

/- main lines 814-820: after the sampling loop, when cores_flag is set the
   program calls calculate_max_frequency and then renders the cores panel
   with the returned frequency.  Result none: the process exited inside
   calculate_max_frequency; some (some f): the cores panel rendered with
   frequency f; some none: the cores panel was not requested. -/
def coresSection (cores_flag : Bool) (freqRead : Option (Option ℚ)) :
    Option (Option ℚ) :=
  if cores_flag then
    match calculate_max_frequency freqRead with
    | none => none
    | some f => some (some f)
  else some none

/- ===================== argument parsing =============================
   src/Assignment1.c: removeWhiteSpace (78-89), isPositional (336-345),
   isFlag (359-441), processCommandLineArguments (462-505),
   initializeArgument (51-68).  Strings are char lists. -/

/- C isspace over the default locale. -/
def isspace (c : Char) : Bool :=
  c == ' ' || c == '\t' || c == '\n' || c == '\x0b' || c == '\x0c' || c == '\r'

def removeWhiteSpace (s : List Char) : List Char :=
  s.dropWhile (fun c => isspace c)

def digitsVal (ds : List Char) : ℤ :=
  ds.foldl (fun a c => a * 10 + ((c.toNat : ℤ) - 48)) 0

/- strtol(nptr, &endptr, 10): skip isspace, optional sign, then digits.
   Returns the parsed value and the suffix endptr points at; when no
   digits are consumed the value is 0 and endptr is nptr itself.
   Overflow saturation is not modelled (all inputs of interest are small). -/
def strtol (cs : List Char) : ℤ × List Char :=
  let cs1 := cs.dropWhile (fun c => isspace c)
  let signNeg := cs1.head? = some '-'
  let body := if cs1.head? = some '-' ∨ cs1.head? = some '+' then cs1.tail else cs1
  let ds := body.takeWhile Char.isDigit
  if ds = [] then (0, cs)
  else ((if signNeg then -digitsVal ds else digitsVal ds), body.dropWhile Char.isDigit)

structure ArgsInfo where
  memory_flag : Bool
  cpu_flag : Bool
  cores_flag : Bool
  samples : ℤ
  tdelay : ℤ
  updated_sample : Bool
  updated_tdelay : Bool
deriving DecidableEq

/- initializeArgument (lines 51-68): the defaults written into the
   freshly allocated ArgsInfo. -/
def initArgsInfo : ArgsInfo :=
  ⟨false, false, false, 20, 500000, false, false⟩

/- isPositional: every character of the argument is a digit (true for the
   empty string, as in the source, whose while loop never runs then). -/
def isPositional (arg : List Char) : Bool :=
  arg.all Char.isDigit

/- Result of one isFlag call: the C return value, the updated ArgsInfo,
   and the strings written to stdout and stderr during the call. -/
structure FlagResult where
  ok : Bool
  info : ArgsInfo
  out : List String
  err : List String
deriving DecidableEq

def isFlag (info : ArgsInfo) (argv : List Char) : FlagResult :=
  if argv.length = 0 then ⟨false, info, [], []⟩
  else if argv = ("--memory".data) then ⟨true, { info with memory_flag := true }, [], []⟩
  else if argv = ("--cpu".data) then ⟨true, { info with cpu_flag := true }, [], []⟩
  else if argv = ("--cores".data) then ⟨true, { info with cores_flag := true }, [], []⟩
  else if argv.take 10 = ("--samples=".data) then
    if argv.drop 10 = [] then ⟨false, info, ["here"], ["Error: Missing value"]⟩
    else if info.updated_sample = true then
      ⟨false, info, ["here", "here2"], ["Error: cannot have multiple sample values"]⟩
    else if ¬ (strtol (removeWhiteSpace (argv.drop 10))).2 = [] ∨
        (strtol (removeWhiteSpace (argv.drop 10))).1 ≤ 0 then
      ⟨false, info, ["here", "here2", "here3"], ["Error: Invalid value for --samples"]⟩
    else
      ⟨true,
        { info with
            samples := (strtol (removeWhiteSpace (argv.drop 10))).1,
            updated_sample := true },
        ["here", "here2", "here3"], []⟩
  else if argv.take 9 = ("--tdelay=".data) then
    if argv.drop 9 = [] then ⟨false, info, [], ["Error: Missing value"]⟩
    else if info.updated_tdelay = true then
      ⟨false, info, [], ["Error: cannot have multiple tdelay values"]⟩
    else if ¬ (strtol (removeWhiteSpace (argv.drop 9))).2 = [] ∨
        (strtol (removeWhiteSpace (argv.drop 9))).1 ≤ 0 then
      ⟨false, info, [], ["Error:Invalid value for tdelay"]⟩
    else
      ⟨true,
        { info with
            tdelay := (strtol (removeWhiteSpace (argv.drop 9))).1,
            updated_tdelay := true }, [], []⟩
  else ⟨false, info, [], []⟩

/- The for loop of processCommandLineArguments (lines 490-497): isFlag
   never moves current_index itself, so the walk is sequential; the first
   rejected argument makes the whole parse fail (return -1, exit 1). -/
def flagLoop : ArgsInfo → List (List Char) → Option ArgsInfo
  | info, [] => some info
  | info, a :: rest =>
    let r := isFlag info a
    if r.ok then flagLoop r.info rest else none

/- processCommandLineArguments (lines 462-505) over the full argv vector
   (element 0 is the program name).  none is the -1 return, on which main
   frees the ArgsInfo and exits with status 1. -/
def processCommandLineArguments (argv : List (List Char)) : Option ArgsInfo :=
  let argc := argv.length
  let info := initArgsInfo
  let afterParse : Option ArgsInfo :=
    if argc = 1 then
      some { info with cores_flag := true, cpu_flag := true, memory_flag := true }
    else
      let res1 : Option (ArgsInfo × ℕ) :=
        if 2 ≤ argc ∧ isPositional (argv.getD 1 []) = true then
          if ¬ (strtol (argv.getD 1 [])).2 = [] ∨ (strtol (argv.getD 1 [])).1 ≤ 0 then none
          else
            let info1 := { info with samples := (strtol (argv.getD 1 [])).1,
                                     updated_sample := true }
            if 3 ≤ argc ∧ isPositional (argv.getD 2 []) = true then
              if ¬ (strtol (argv.getD 2 [])).2 = [] ∨ (strtol (argv.getD 2 [])).1 ≤ 0 then
                none
              else
                some ({ info1 with tdelay := (strtol (argv.getD 2 [])).1,
                                   updated_tdelay := true }, 3)
            else some (info1, 2)
        else some (info, 1)
      match res1 with
      | none => none
      | some (i, start) => flagLoop i (argv.drop start)
  match afterParse with
  | none => none
  | some i =>
    if i.cores_flag = false ∧ i.cpu_flag = false ∧ i.memory_flag = false then
      some { i with cores_flag := true, cpu_flag := true, memory_flag := true }
    else some i

/- ===================== axis drawing =================================
   src/Assignment1.c, draw_graph (lines 526-561).  Only the horizontal
   rule matters to the claims: after clamping samples up to 20, the loop
   for (j = 0; j < samples + 1; j++) prints one box-drawing character per
   iteration. -/

def draw_graph_hrule (samples : ℤ) : List Char :=
  List.replicate ((if samples < 20 then 20 else samples) + 1).toNat '─'

/- ===================== sampling loop ================================
   main, lines 782-810.  Each iteration reads the per-sample metrics and
   plots one glyph per enabled graph panel; the numeric readouts are
   rewritten at fixed positions and are not part of the plotted trace.
   memory.row / cpu.row are the saved base rows (axis base), memory.col /
   cpu.col the advancing write columns with their post-increment. -/

/- A C cast to int: truncation toward zero. -/
def truncInt (q : ℚ) : ℤ :=
  if 0 ≤ q then ⌊q⌋ else ⌈q⌉

/- Modelled from the spec: the row offset the spec attributes to
   GraphPanel.pushSample, rowOffset = round(value / scaleFactor); written
   only for comparison with the truncation the code performs. -/
def rowOffsetSpec (value scale : ℚ) : ℤ :=
  round (value / scale)

structure RunCfg where
  memory_flag : Bool
  cpu_flag : Bool
  scaling_factor : ℚ
  memRow : ℤ
  cpuRow : ℤ
deriving DecidableEq

structure LoopState where
  tracker : TrackerState
  memCol : ℤ
  cpuCol : ℤ
deriving DecidableEq

structure GlyphWrite where
  row : ℤ
  col : ℤ
  glyph : Char
deriving DecidableEq

/- The OS reads one loop iteration can perform: the sysinfo call inside
   calculate_memory_used, the sysinfo call inside the nested
   get_total_memory and the /proc/stat read. -/
structure TickReads where
  memOwn : Option SysinfoRead
  memTotal : Option SysinfoRead
  cpuStat : Option CpuSnapshot
deriving DecidableEq

/- One iteration of the for loop (lines 782-810).  Result none: the
   process exited (inside get_total_memory).  Otherwise the new loop
   state plus the glyphs written this tick, in program order. -/
def sampleTick (cfg : RunCfg) (st : LoopState) (r : TickReads) :
    Option (LoopState × List GlyphWrite) :=
  match (if cfg.memory_flag then
          match calculate_memory_used r.memOwn r.memTotal with
          | none => none
          | some v => some (st.memCol + 1,
              [GlyphWrite.mk (cfg.memRow - truncInt (v / cfg.scaling_factor) - 1)
                st.memCol '#'])
        else some (st.memCol, ([] : List GlyphWrite))) with
  | none => none
  | some (memCol2, mws) =>
    if cfg.cpu_flag then
      some (⟨(calculate_cpu_utilization st.tracker r.cpuStat).1, memCol2, st.cpuCol + 1⟩,
        mws ++ [GlyphWrite.mk
          (cfg.cpuRow - truncInt ((calculate_cpu_utilization st.tracker r.cpuStat).2 / 10) - 1)
          st.cpuCol ':'])
    else some (⟨st.tracker, memCol2, st.cpuCol⟩, mws)

/- The whole for loop over a list of per-tick read results. -/
def runLoop (cfg : RunCfg) : LoopState → List TickReads →
    Option (LoopState × List (List GlyphWrite))
  | st, [] => some (st, [])
  | st, r :: rs =>
    match sampleTick cfg st r with
    | none => none
    | some (st2, ws) =>
      match runLoop cfg st2 rs with
      | none => none
      | some (stF, wss) => some (stF, ws :: wss)

/- The columns at which the memory panel ink was laid down, tick by tick. -/
def memColsWritten : List (List GlyphWrite) → List ℤ
  | [] => []
  | ws :: wss => (ws.filter (fun w => w.glyph == '#')).map (fun w => w.col) ++
      memColsWritten wss

/- The columns at which the CPU panel ink was laid down, tick by tick. -/
def cpuColsWritten : List (List GlyphWrite) → List ℤ
  | [] => []
  | ws :: wss => (ws.filter (fun w => w.glyph == ':')).map (fun w => w.col) ++
      cpuColsWritten wss

/- ===================== helper lemmas ================================ -/

/- First-call branch of the tracker: the sentinel pair (0, 0) stores the
   current totals and yields 0. -/
theorem cpuUpdate_first (s : CpuSnapshot) :
    cpuUpdate ⟨0, 0⟩ s = (⟨s.total, s.idleTotal⟩, 0) := by
  rw [cpuUpdate, if_pos ⟨rfl, rfl⟩]

/- Degenerate branch: a previous snapshot is stored but one of the two
   deltas is zero. -/
theorem cpuUpdate_degenerate (st : TrackerState) (s : CpuSnapshot)
    (h1 : ¬(st.preTotalCPU = 0 ∧ st.preIdleCPU = 0))
    (h2 : (s.total - s.idleTotal) - (st.preTotalCPU - st.preIdleCPU) = 0 ∨
      s.total - st.preTotalCPU = 0) :
    cpuUpdate st s = (⟨s.total, s.idleTotal⟩, 0) := by
  rw [cpuUpdate, if_neg h1, if_pos h2]

/- Main branch: both deltas nonzero. -/
theorem cpuUpdate_main (st : TrackerState) (s : CpuSnapshot)
    (h1 : ¬(st.preTotalCPU = 0 ∧ st.preIdleCPU = 0))
    (hb : (s.total - s.idleTotal) - (st.preTotalCPU - st.preIdleCPU) ≠ 0)
    (ht : s.total - st.preTotalCPU ≠ 0) :
    cpuUpdate st s = (⟨s.total, s.idleTotal⟩,
      ((s.total - s.idleTotal) - (st.preTotalCPU - st.preIdleCPU)) /
        (s.total - st.preTotalCPU) * 100) := by
  rw [cpuUpdate, if_neg h1, if_neg (by push_neg; exact ⟨hb, ht⟩)]

/- ===================== claims ====================================== -/

/-- Claim C1: when the tracker already holds a previous snapshot and both
the total delta and the busy delta are nonzero, calculate_cpu_utilization
returns ((total_now - idleTotal_now) - (total_prev - idleTotal_prev)) /
(total_now - total_prev) * 100. -/
theorem C1_cpu_delta_formula (st : TrackerState) (s : CpuSnapshot)
    (hinit : ¬(st.preTotalCPU = 0 ∧ st.preIdleCPU = 0))
    (htot : s.total - st.preTotalCPU ≠ 0)
    (hbusy : (s.total - s.idleTotal) - (st.preTotalCPU - st.preIdleCPU) ≠ 0) :
    (calculate_cpu_utilization st (some s)).2 =
      ((s.total - s.idleTotal) - (st.preTotalCPU - st.preIdleCPU)) /
        (s.total - st.preTotalCPU) * 100 := by
  show (cpuUpdate st s).2 = _
  rw [cpuUpdate_main st s hinit hbusy htot]

/-- Claim C1 witness: previous totals (100, 20), current snapshot with
total 300 and idle total 70, so the total delta is 200 and the idle delta
is 50 (busy delta 150); the result is exactly 75. -/
theorem C1_witness :
    (calculate_cpu_utilization ⟨100, 20⟩ (some ⟨230, 0, 0, 50, 20, 0, 0, 0⟩)).2 = 75 := by
  have h := C1_cpu_delta_formula ⟨100, 20⟩ ⟨230, 0, 0, 50, 20, 0, 0, 0⟩
    (by norm_num) (by norm_num [CpuSnapshot.total])
    (by norm_num [CpuSnapshot.total, CpuSnapshot.idleTotal])
  rw [h]
  norm_num [CpuSnapshot.total, CpuSnapshot.idleTotal]

/-- Claim C2 counterexample: a two-call sequence of snapshots (both with
non-negative counter fields) whose second utilization is -50, outside the
closed range 0 to 100 — the code performs no clamping.  First snapshot:
user 100, everything else 0; second snapshot: user 50, idle 150. -/
theorem C2_counterexample :
    ¬ (0 ≤ (calculate_cpu_utilization
        (calculate_cpu_utilization ⟨0, 0⟩ (some ⟨100, 0, 0, 0, 0, 0, 0, 0⟩)).1
        (some ⟨50, 0, 0, 150, 0, 0, 0, 0⟩)).2) := by
  have h1 : (calculate_cpu_utilization ⟨0, 0⟩ (some ⟨100, 0, 0, 0, 0, 0, 0, 0⟩)).1 =
      (⟨100, 0⟩ : TrackerState) := by
    show (cpuUpdate _ _).1 = _
    rw [cpuUpdate_first]
    norm_num [CpuSnapshot.total, CpuSnapshot.idleTotal, TrackerState.mk.injEq]
  rw [h1]
  show ¬ (0 ≤ (cpuUpdate ⟨100, 0⟩ ⟨50, 0, 0, 150, 0, 0, 0, 0⟩).2)
  rw [cpuUpdate_main ⟨100, 0⟩ ⟨50, 0, 0, 150, 0, 0, 0, 0⟩ (by norm_num)
    (by norm_num [CpuSnapshot.total, CpuSnapshot.idleTotal])
    (by norm_num [CpuSnapshot.total])]
  norm_num [CpuSnapshot.total, CpuSnapshot.idleTotal]

/-- Claim C2 amended: the code does not clamp, and arbitrary snapshot
pairs can produce values outside 0..100; but whenever the successive
snapshots are monotone in the sense that neither the busy total nor the
idle total decreases (always true of real kernel counters), the returned
percentage lies in the closed range 0 to 100. -/
theorem C2_range_when_monotone (st : TrackerState) (s : CpuSnapshot)
    (hb : st.preTotalCPU - st.preIdleCPU ≤ s.total - s.idleTotal)
    (hi : st.preIdleCPU ≤ s.idleTotal) :
    0 ≤ (calculate_cpu_utilization st (some s)).2 ∧
      (calculate_cpu_utilization st (some s)).2 ≤ 100 := by
  show 0 ≤ (cpuUpdate st s).2 ∧ (cpuUpdate st s).2 ≤ 100
  by_cases h1 : st.preTotalCPU = 0 ∧ st.preIdleCPU = 0
  · rcases h1 with ⟨ha, hb'⟩
    have : st = ⟨0, 0⟩ := by cases st; simp_all
    rw [this, cpuUpdate_first]
    norm_num
  · by_cases h2 : (s.total - s.idleTotal) - (st.preTotalCPU - st.preIdleCPU) = 0 ∨
        s.total - st.preTotalCPU = 0
    · rw [cpuUpdate_degenerate st s h1 h2]
      norm_num
    · push_neg at h2
      obtain ⟨hbne, htne⟩ := h2
      rw [cpuUpdate_main st s h1 hbne htne]
      have hdb0 : 0 < (s.total - s.idleTotal) - (st.preTotalCPU - st.preIdleCPU) :=
        lt_of_le_of_ne (by linarith) (Ne.symm hbne)
      have hdt0 : 0 < s.total - st.preTotalCPU := by linarith
      have hle : (s.total - s.idleTotal) - (st.preTotalCPU - st.preIdleCPU) ≤
          s.total - st.preTotalCPU := by linarith
      constructor
      · positivity
      · have h3 : ((s.total - s.idleTotal) - (st.preTotalCPU - st.preIdleCPU)) /
            (s.total - st.preTotalCPU) ≤ 1 := (div_le_one hdt0).mpr hle
        have h4 : ((s.total - s.idleTotal) - (st.preTotalCPU - st.preIdleCPU)) /
            (s.total - st.preTotalCPU) * 100 ≤ 1 * 100 := by
          have h100 : (0 : ℚ) ≤ 100 := by norm_num
          exact mul_le_mul_of_nonneg_right h3 h100
        linarith

/-- Claim C2 witness: monotone snapshots with busy totals 80 then 230 and
idle totals 20 then 70; the utilization 75 lies in the closed range. -/
theorem C2_witness :
    0 ≤ (calculate_cpu_utilization ⟨100, 20⟩ (some ⟨230, 0, 0, 50, 20, 0, 0, 0⟩)).2 ∧
      (calculate_cpu_utilization ⟨100, 20⟩ (some ⟨230, 0, 0, 50, 20, 0, 0, 0⟩)).2 ≤ 100 :=
  C2_range_when_monotone ⟨100, 20⟩ ⟨230, 0, 0, 50, 20, 0, 0, 0⟩
    (by norm_num [CpuSnapshot.total, CpuSnapshot.idleTotal])
    (by norm_num [CpuSnapshot.idleTotal])

/-- Claim C3: the first call (sentinel state (0, 0)) stores the snapshot
totals and returns 0; any later call with a stored snapshot whose total
delta or busy delta is zero also returns 0 rather than dividing by zero. -/
theorem C3_warmup_and_zero_delta (st : TrackerState) (s s0 : CpuSnapshot) :
    calculate_cpu_utilization ⟨0, 0⟩ (some s0) = (⟨s0.total, s0.idleTotal⟩, 0) ∧
    (¬(st.preTotalCPU = 0 ∧ st.preIdleCPU = 0) →
      (s.total - st.preTotalCPU = 0 ∨
        (s.total - s.idleTotal) - (st.preTotalCPU - st.preIdleCPU) = 0) →
      (calculate_cpu_utilization st (some s)).2 = 0) := by
  constructor
  · exact cpuUpdate_first s0
  · intro h1 h2
    show (cpuUpdate st s).2 = 0
    rw [cpuUpdate_degenerate st s h1 (Or.symm h2)]

/-- Claim C3 witness: a first call stores the snapshot and returns 0, and
a second call whose current counters equal the stored ones (total 100,
idle total 20 on both sides) returns 0. -/
theorem C3_witness :
    calculate_cpu_utilization ⟨0, 0⟩ (some ⟨1, 0, 0, 0, 0, 0, 0, 0⟩) =
      (⟨CpuSnapshot.total ⟨1, 0, 0, 0, 0, 0, 0, 0⟩,
        CpuSnapshot.idleTotal ⟨1, 0, 0, 0, 0, 0, 0, 0⟩⟩, 0) ∧
    (calculate_cpu_utilization ⟨100, 20⟩ (some ⟨80, 0, 0, 20, 0, 0, 0, 0⟩)).2 = 0 :=
  ⟨(C3_warmup_and_zero_delta ⟨100, 20⟩ ⟨80, 0, 0, 20, 0, 0, 0, 0⟩
      ⟨1, 0, 0, 0, 0, 0, 0, 0⟩).1,
   (C3_warmup_and_zero_delta ⟨100, 20⟩ ⟨80, 0, 0, 20, 0, 0, 0, 0⟩
      ⟨1, 0, 0, 0, 0, 0, 0, 0⟩).2 (by norm_num)
     (by norm_num [CpuSnapshot.total])⟩

/- Truncation of zero. -/
theorem truncInt_zero : truncInt 0 = 0 := by
  rw [truncInt, if_pos le_rfl]
  norm_num

/- A memory-statistics failure inside get_total_memory aborts the tick
   (the process: the source calls exit(1) there). -/
theorem sampleTick_abort (cfg : RunCfg) (st : LoopState) (r : TickReads)
    (info : SysinfoRead) (hm : cfg.memory_flag = true)
    (ho : r.memOwn = some info) (ht : r.memTotal = none) :
    sampleTick cfg st r = none := by
  simp [sampleTick, hm, ho, ht, calculate_memory_used, get_total_memory]

/- When the memory-used computation does not abort, the tick succeeds,
   whatever the /proc/stat read did. -/
theorem sampleTick_ok (cfg : RunCfg) (st : LoopState) (r : TickReads)
    (h : cfg.memory_flag = true →
      ∃ v, calculate_memory_used r.memOwn r.memTotal = some v) :
    ∃ out, sampleTick cfg st r = some out := by
  unfold sampleTick
  cases hm : cfg.memory_flag with
  | false =>
    cases hc : cfg.cpu_flag <;> simp
  | true =>
    obtain ⟨v, hv⟩ := h hm
    cases hc : cfg.cpu_flag <;> simp [hv]

/- A failed /proc/stat read yields utilization 0, and the loop still
   plots a CPU glyph for the tick, at the zero row. -/
theorem sampleTick_cpu_fail_glyph (cfg : RunCfg) (st : LoopState) (r : TickReads)
    (out : LoopState × List GlyphWrite) (hc : cfg.cpu_flag = true)
    (hr : r.cpuStat = none) (h : sampleTick cfg st r = some out) :
    GlyphWrite.mk (cfg.cpuRow - 1) st.cpuCol ':' ∈ out.2 := by
  unfold sampleTick at h
  cases hm : cfg.memory_flag with
  | false =>
    rw [hm] at h
    simp only [Bool.false_eq_true, if_false] at h
    rw [hc] at h
    simp only [if_true, hr, calculate_cpu_utilization, Option.some_inj] at h
    rw [← h]
    simp [truncInt_zero]
  | true =>
    rw [hm] at h
    simp only [if_true] at h
    cases hcm : calculate_memory_used r.memOwn r.memTotal with
    | none => rw [hcm] at h; simp at h
    | some v =>
      rw [hcm] at h
      rw [hc] at h
      simp only [if_true, hr, calculate_cpu_utilization, Option.some_inj] at h
      rw [← h]
      simp [truncInt_zero]

/-- Claim C4 counterexample: a tick in which the memory-statistics read
inside get_total_memory fails (while the memory panel is enabled) makes
sampleTick abort — the source calls exit(1) in get_total_memory, so the
failure terminates the sampling loop and the whole process, contradicting
the claim that per-sample metric failures never abort them. -/
theorem C4_counterexample :
    sampleTick ⟨true, true, 1, 10, 20⟩ ⟨⟨0, 0⟩, 1, 1⟩
      ⟨some ⟨0, 0, 1⟩, none, some ⟨1, 0, 0, 0, 0, 0, 0, 0⟩⟩ = none :=
  sampleTick_abort _ _ _ ⟨0, 0, 1⟩ rfl rfl rfl

/-- Claim C4 amended: a /proc/stat read failure never aborts the loop
(utilization is reported as 0 and the CPU panel still writes a glyph that
tick, at the zero row — not nothing), and a failure of the sysinfo call
inside calculate_memory_used itself is non-fatal (it yields 0); but a
failure of the sysinfo call inside get_total_memory exits the whole
process, aborting the loop. -/
theorem C4_per_sample_failures :
    (∀ (cfg : RunCfg) (st : LoopState) (r : TickReads) (info : SysinfoRead),
      cfg.memory_flag = true → r.memOwn = some info → r.memTotal = none →
      sampleTick cfg st r = none) ∧
    (∀ (cfg : RunCfg) (st : LoopState) (r : TickReads),
      (cfg.memory_flag = true →
        ∃ v, calculate_memory_used r.memOwn r.memTotal = some v) →
      ∃ out, sampleTick cfg st r = some out) ∧
    (∀ (cfg : RunCfg) (st : LoopState) (r : TickReads)
        (out : LoopState × List GlyphWrite),
      cfg.cpu_flag = true → r.cpuStat = none → sampleTick cfg st r = some out →
      GlyphWrite.mk (cfg.cpuRow - 1) st.cpuCol ':' ∈ out.2) ∧
    (∀ st : TrackerState, calculate_cpu_utilization st none = (st, 0)) ∧
    (∀ forTotal, calculate_memory_used none forTotal = some 0) :=
  ⟨fun cfg st r info => sampleTick_abort cfg st r info,
   fun cfg st r => sampleTick_ok cfg st r,
   fun cfg st r out => sampleTick_cpu_fail_glyph cfg st r out,
   fun _ => rfl, fun _ => rfl⟩

/-- Claim C4 witness: concrete instances of the amended behavior — an
aborting tick for a failed total-memory read, a succeeding tick under a
failed /proc/stat read, and the zero-row CPU glyph that tick still
writes. -/
theorem C4_witness :
    sampleTick ⟨true, false, 1, 10, 20⟩ ⟨⟨0, 0⟩, 2, 3⟩
        ⟨some ⟨0, 0, 1⟩, none, none⟩ = none ∧
    (∃ out, sampleTick ⟨false, true, 1, 10, 20⟩ ⟨⟨0, 0⟩, 2, 3⟩
        ⟨none, none, none⟩ = some out) ∧
    sampleTick ⟨false, true, 1, 10, 20⟩ ⟨⟨0, 0⟩, 2, 3⟩ ⟨none, none, none⟩ =
      some (⟨⟨0, 0⟩, 2, 4⟩, [GlyphWrite.mk 19 3 ':']) ∧
    GlyphWrite.mk 19 3 ':' ∈
      ((⟨⟨0, 0⟩, 2, 4⟩, [GlyphWrite.mk 19 3 ':']) :
        LoopState × List GlyphWrite).2 := by
  have heval : sampleTick ⟨false, true, 1, 10, 20⟩ ⟨⟨0, 0⟩, 2, 3⟩
      ⟨none, none, none⟩ = some (⟨⟨0, 0⟩, 2, 4⟩, [GlyphWrite.mk 19 3 ':']) := by
    simp [sampleTick, calculate_cpu_utilization, truncInt_zero]
  refine ⟨C4_per_sample_failures.1 _ _ _ ⟨0, 0, 1⟩ rfl rfl rfl,
    C4_per_sample_failures.2.1 _ _ _ (fun hmem => (Bool.false_ne_true hmem).elim),
    heval, ?_⟩
  have hmem := C4_per_sample_failures.2.2.1 ⟨false, true, 1, 10, 20⟩ ⟨⟨0, 0⟩, 2, 3⟩
    ⟨none, none, none⟩ (⟨⟨0, 0⟩, 2, 4⟩, [GlyphWrite.mk 19 3 ':']) rfl rfl heval
  exact hmem

/-- Claim C5 counterexample: when the frequency file opens but parsing
fails, calculate_max_frequency exits the whole process (modelled none) —
so the run does terminate; and when the file cannot be opened at all the
function returns 0 and the cores panel render is not aborted (it renders
with 0 GHz). -/
theorem C5_counterexample :
    coresSection true (some none) = none ∧
    coresSection true none = some (some 0) :=
  ⟨rfl, rfl⟩

/-- Claim C5 amended: an unreadable frequency file makes
calculate_max_frequency return 0 (the cores panel still renders, showing
0 GHz); a file that opens but fails to parse triggers exit(1), which
terminates the whole process; a parsed value v in kHz yields v / 1000000
GHz. -/
theorem C5_freq_failure_modes :
    calculate_max_frequency none = some 0 ∧
    calculate_max_frequency (some none) = none ∧
    (∀ v : ℚ, calculate_max_frequency (some (some v)) = some (v / 1000000)) ∧
    (∀ read, coresSection false read = some none) ∧
    coresSection true none = some (some 0) :=
  ⟨rfl, rfl, fun _ => rfl, fun _ => rfl, rfl⟩

/-- Claim C6 counterexample: with CPU utilization 19 the code truncates
19 / 10 to 1 and plots at row 13 - 1 - 1 = 11 (axis base row 13), while
the claimed rowOffset = round(19 / 10) = 2 would place the glyph at row
13 - 2 - 1 = 10: the plotted row is not the claimed one. -/
theorem C6_counterexample :
    sampleTick ⟨false, true, 10, 0, 13⟩ ⟨⟨100, 20⟩, 0, 5⟩
        ⟨none, none, some ⟨99, 0, 0, 101, 0, 0, 0, 0⟩⟩ =
      some (⟨⟨200, 101⟩, 0, 6⟩, [GlyphWrite.mk 11 5 ':']) ∧
    (13 : ℤ) - rowOffsetSpec 19 10 - 1 ≠ 11 := by
  constructor
  · have hu : cpuUpdate ⟨100, 20⟩ ⟨99, 0, 0, 101, 0, 0, 0, 0⟩ =
        (⟨200, 101⟩, 19) := by
      rw [cpuUpdate_main _ _ (by norm_num)
        (by norm_num [CpuSnapshot.total, CpuSnapshot.idleTotal])
        (by norm_num [CpuSnapshot.total])]
      norm_num [CpuSnapshot.total, CpuSnapshot.idleTotal, Prod.ext_iff,
        TrackerState.mk.injEq]
    have htr : truncInt (19 / 10) = 1 := by
      rw [truncInt, if_pos (by norm_num)]
      norm_num
    simp [sampleTick, calculate_cpu_utilization, hu, htr]
  · rw [rowOffsetSpec, round_eq]
    norm_num

/-- Claim C6 amended: for a tick with both graph panels enabled and a
successful memory read yielding v, the glyphs written are exactly one
hash at row memRow - trunc(v / scaleFactor) - 1 and one colon at row
cpuRow - trunc(utilization / 10) - 1, where trunc is the C (int) cast
(truncation toward zero, not rounding); each glyph lands in the panel's
current write column and the column is then incremented. -/
theorem C6_push_sample_shape (cfg : RunCfg) (st : LoopState) (r : TickReads)
    (v : ℚ) (hm : cfg.memory_flag = true) (hc : cfg.cpu_flag = true)
    (hv : calculate_memory_used r.memOwn r.memTotal = some v) :
    sampleTick cfg st r =
      some (⟨(calculate_cpu_utilization st.tracker r.cpuStat).1,
          st.memCol + 1, st.cpuCol + 1⟩,
        [GlyphWrite.mk (cfg.memRow - truncInt (v / cfg.scaling_factor) - 1)
            st.memCol '#',
         GlyphWrite.mk (cfg.cpuRow -
            truncInt ((calculate_cpu_utilization st.tracker r.cpuStat).2 / 10) - 1)
            st.cpuCol ':']) := by
  simp [sampleTick, hm, hc, hv]

/-- Claim C6 witness: both panels enabled, memory used 19 GB at scale
factor 10 and utilization 19: the hash lands at row 30 - 1 - 1 = 28 in
column 4, the colon at row 13 - 1 - 1 = 11 in column 5, and both write
columns advance by one. -/
theorem C6_witness :
    sampleTick ⟨true, true, 10, 30, 13⟩ ⟨⟨100, 20⟩, 4, 5⟩
        ⟨some ⟨0, 1073741824, 1⟩, some ⟨21474836480, 0, 1⟩,
          some ⟨99, 0, 0, 101, 0, 0, 0, 0⟩⟩ =
      some (⟨⟨200, 101⟩, 5, 6⟩, [GlyphWrite.mk 28 4 '#', GlyphWrite.mk 11 5 ':']) := by
  have hv : calculate_memory_used (some ⟨0, 1073741824, 1⟩)
      (some ⟨21474836480, 0, 1⟩) = some 19 := by
    simp [calculate_memory_used, get_total_memory]
    norm_num
  have hu : cpuUpdate ⟨100, 20⟩ ⟨99, 0, 0, 101, 0, 0, 0, 0⟩ =
      (⟨200, 101⟩, 19) := by
    rw [cpuUpdate_main _ _ (by norm_num)
      (by norm_num [CpuSnapshot.total, CpuSnapshot.idleTotal])
      (by norm_num [CpuSnapshot.total])]
    norm_num [CpuSnapshot.total, CpuSnapshot.idleTotal, Prod.ext_iff,
      TrackerState.mk.injEq]
  have htr : truncInt (19 / 10) = 1 := by
    rw [truncInt, if_pos (by norm_num)]
    norm_num
  rw [C6_push_sample_shape ⟨true, true, 10, 30, 13⟩ ⟨⟨100, 20⟩, 4, 5⟩
    ⟨some ⟨0, 1073741824, 1⟩, some ⟨21474836480, 0, 1⟩,
      some ⟨99, 0, 0, 101, 0, 0, 0, 0⟩⟩ 19 rfl rfl hv]
  simp [calculate_cpu_utilization, hu, htr]

/-- Claim C7: the four documented parser vectors — two positional
arguments set samples and tdelay with all panels enabled; a --cpu flag
with --samples=5 enables only the CPU panel with the default tdelay;
a duplicated --samples=5 is rejected with the duplicate-value diagnostic;
and the unknown token sequence splitting the flag as two words is
rejected (non-zero exit, modelled as none). -/
theorem C7_arg_parser_vectors :
    processCommandLineArguments [("prog".data), ("30".data), ("1000000".data)] =
      some ⟨true, true, true, 30, 1000000, true, true⟩ ∧
    processCommandLineArguments [("prog".data), ("--cpu".data), ("--samples=5".data)] =
      some ⟨false, true, false, 5, 500000, true, false⟩ ∧
    processCommandLineArguments
        [("prog".data), ("--samples=5".data), ("--samples=5".data)] = none ∧
    (isFlag ⟨false, false, false, 5, 500000, true, false⟩ ("--samples=5".data)).err =
      ["Error: cannot have multiple sample values"] ∧
    processCommandLineArguments [("prog".data), ("--".data), ("cpu".data)] = none := by
  decide

/-- Claim C9 counterexample: the drawing loop runs j = 0 .. samples
inclusive, so at N = 20 the horizontal rule has 21 characters, not
max(20, 20) = 20. -/
theorem C9_counterexample : ¬ ((draw_graph_hrule 20).length = 20) := by
  decide

/-- Claim C9 amended: the horizontal rule beneath the axis consists of
exactly max(N, 20) + 1 characters. -/
theorem C9_hrule_length (samples : ℤ) :
    (draw_graph_hrule samples).length = (max samples 20).toNat + 1 := by
  rw [draw_graph_hrule, List.length_replicate]
  rcases le_or_lt 20 samples with h | h
  · rw [if_neg (by omega), max_eq_left h]
    omega
  · rw [if_pos h, max_eq_right (le_of_lt h)]
    omega

/-- Claim C10 counterexample: when a samples value was already recorded
(the updated_sample flag is set, as on the second argument of a
duplicated --samples=5 pair), the parser prints only "here" and "here2"
for a --samples= argument with a non-empty value: "here3" is not written,
so the three debug strings are not printed unconditionally. -/
theorem C10_counterexample :
    (isFlag { initArgsInfo with updated_sample := true } ("--samples=5".data)).out =
      ["here", "here2"] ∧
    ¬ ("here3" ∈ (isFlag { initArgsInfo with updated_sample := true }
        ("--samples=5".data)).out) := by
  decide

/-- Claim C10 amended: for every --samples= argument with a non-empty
value the parser always writes the debug strings "here" and "here2" to
stdout; it writes "here3" as well exactly when no samples value had been
recorded yet (then regardless of whether the value is accepted or
rejected as invalid); on a duplicate it stops after "here2". -/
theorem C10_debug_prints (info : ArgsInfo) (v : List Char) (hv : ¬ v = []) :
    (isFlag info (("--samples=".data) ++ v)).out =
      if info.updated_sample = true then ["here", "here2"]
      else ["here", "here2", "here3"] := by
  have h10 : ("--samples=".data).length = 10 := rfl
  have hTake : (("--samples=".data) ++ v).take 10 = ("--samples=".data) := by
    rw [← h10, List.take_left]
  have hDrop : (("--samples=".data) ++ v).drop 10 = v := by
    rw [← h10, List.drop_left]
  have hlen : ¬ ((("--samples=".data) ++ v).length = 0) := by
    rw [List.length_append, h10]
    omega
  have hne1 : ¬ ((("--samples=".data) ++ v) = ("--memory".data)) := by
    intro h
    have hl := congrArg List.length h
    rw [List.length_append, h10] at hl
    have h8 : ("--memory".data).length = 8 := rfl
    omega
  have hne2 : ¬ ((("--samples=".data) ++ v) = ("--cpu".data)) := by
    intro h
    have hl := congrArg List.length h
    rw [List.length_append, h10] at hl
    have h5 : ("--cpu".data).length = 5 := rfl
    omega
  have hne3 : ¬ ((("--samples=".data) ++ v) = ("--cores".data)) := by
    intro h
    have hl := congrArg List.length h
    rw [List.length_append, h10] at hl
    have h7 : ("--cores".data).length = 7 := rfl
    omega
  unfold isFlag
  rw [if_neg hlen, if_neg hne1, if_neg hne2, if_neg hne3, if_pos hTake, hDrop,
    if_neg hv]
  by_cases hu : info.updated_sample = true
  · rw [if_pos hu, if_pos hu]
  · rw [if_neg hu, if_neg hu]
    split_ifs <;> rfl

/-- Claim C10 witness: the first --samples=5 against a fresh ArgsInfo
prints all three debug strings even though the value is accepted. -/
theorem C10_witness :
    (¬ ("5".data) = ([] : List Char)) ∧
    (isFlag initArgsInfo (("--samples=".data) ++ ("5".data))).out =
      ["here", "here2", "here3"] :=
  ⟨by decide,
   (C10_debug_prints initArgsInfo ("5".data) (by decide)).trans (by decide)⟩

/- A successful tick with the memory panel enabled writes its single hash
   in the pre-tick write column and advances that column by one. -/
theorem sampleTick_memCol (cfg : RunCfg) (st : LoopState) (r : TickReads)
    (st2 : LoopState) (ws : List GlyphWrite) (hm : cfg.memory_flag = true)
    (h : sampleTick cfg st r = some (st2, ws)) :
    st2.memCol = st.memCol + 1 ∧
      (ws.filter (fun w => w.glyph == '#')).map (fun w => w.col) = [st.memCol] := by
  unfold sampleTick at h
  rw [hm] at h
  simp only [if_true] at h
  cases hcm : calculate_memory_used r.memOwn r.memTotal with
  | none => rw [hcm] at h; simp at h
  | some v =>
    rw [hcm] at h
    cases hc : cfg.cpu_flag with
    | false =>
      rw [hc] at h
      simp only [Bool.false_eq_true, if_false, Option.some_inj, Prod.mk.injEq] at h
      obtain ⟨h1, h2⟩ := h
      subst h1
      subst h2
      simp
    | true =>
      rw [hc] at h
      simp only [if_true, Option.some_inj, Prod.mk.injEq] at h
      obtain ⟨h1, h2⟩ := h
      subst h1
      subst h2
      simp

/- A successful tick with the CPU panel enabled writes its single colon
   in the pre-tick write column and advances that column by one. -/
theorem sampleTick_cpuCol (cfg : RunCfg) (st : LoopState) (r : TickReads)
    (st2 : LoopState) (ws : List GlyphWrite) (hc : cfg.cpu_flag = true)
    (h : sampleTick cfg st r = some (st2, ws)) :
    st2.cpuCol = st.cpuCol + 1 ∧
      (ws.filter (fun w => w.glyph == ':')).map (fun w => w.col) = [st.cpuCol] := by
  unfold sampleTick at h
  cases hm : cfg.memory_flag with
  | false =>
    rw [hm] at h
    simp only [Bool.false_eq_true, if_false] at h
    rw [hc] at h
    simp only [if_true, Option.some_inj, Prod.mk.injEq] at h
    obtain ⟨h1, h2⟩ := h
    subst h1
    subst h2
    simp
  | true =>
    rw [hm] at h
    simp only [if_true] at h
    cases hcm : calculate_memory_used r.memOwn r.memTotal with
    | none => rw [hcm] at h; simp at h
    | some v =>
      rw [hcm] at h
      rw [hc] at h
      simp only [if_true, Option.some_inj, Prod.mk.injEq] at h
      obtain ⟨h1, h2⟩ := h
      subst h1
      subst h2
      simp

/- Prepending a column to the consecutive run starting one to its right
   gives the consecutive run starting at the column itself. -/
theorem consecutive_cols (c : ℤ) (n : ℕ) :
    c :: (List.range n).map (fun i : ℕ => c + 1 + (i : ℤ)) =
      (List.range (n + 1)).map (fun i : ℕ => c + (i : ℤ)) := by
  rw [List.range_succ_eq_map, List.map_cons, List.map_map]
  have hf : ((fun i : ℕ => c + (i : ℤ)) ∘ Nat.succ) =
      (fun i : ℕ => c + 1 + (i : ℤ)) := by
    funext i
    simp only [Function.comp_apply]
    push_cast
    ring
  rw [hf]
  norm_num

/-- Claim C8: over any completed run, each enabled graph panel inks the
consecutive columns starting at its initial write column — every sample
writes exactly one column to the right of the previous sample's column,
and the write-head never moves backwards. -/
theorem C8_monotonic_write_head (cfg : RunCfg) (reads : List TickReads)
    (st stF : LoopState) (wss : List (List GlyphWrite))
    (h : runLoop cfg st reads = some (stF, wss)) :
    (cfg.memory_flag = true →
      memColsWritten wss =
        (List.range reads.length).map (fun i : ℕ => st.memCol + (i : ℤ))) ∧
    (cfg.cpu_flag = true →
      cpuColsWritten wss =
        (List.range reads.length).map (fun i : ℕ => st.cpuCol + (i : ℤ))) := by
  induction reads generalizing st stF wss with
  | nil =>
    unfold runLoop at h
    simp only [Option.some_inj, Prod.mk.injEq] at h
    obtain ⟨hst, hwss⟩ := h
    subst hwss
    simp [memColsWritten, cpuColsWritten]
  | cons r rs ih =>
    unfold runLoop at h
    split at h
    · simp at h
    · rename_i st2 ws hst
      split at h
      · simp at h
      · rename_i stF2 wss2 hrl
        simp only [Option.some_inj, Prod.mk.injEq] at h
        obtain ⟨hF, hwss⟩ := h
        subst hwss
        have ihr := ih st2 stF2 wss2 hrl
        constructor
        · intro hm
          have hm1 := sampleTick_memCol cfg st r st2 ws hm hst
          simp only [memColsWritten, List.length_cons]
          rw [hm1.2, ihr.1 hm, hm1.1, List.singleton_append]
          exact consecutive_cols st.memCol rs.length
        · intro hc
          have hc1 := sampleTick_cpuCol cfg st r st2 ws hc hst
          simp only [cpuColsWritten, List.length_cons]
          rw [hc1.2, ihr.2 hc, hc1.1, List.singleton_append]
          exact consecutive_cols st.cpuCol rs.length

/- Truncation of one. -/
theorem truncInt_one : truncInt 1 = 1 := by
  rw [truncInt, if_pos (by norm_num)]
  norm_num

/-- Claim C8 witness: a two-sample run with both panels enabled starting
at write columns 4 (memory) and 30 (CPU) writes its hashes in columns 4
then 5 and its colons in columns 30 then 31 — consecutive columns. -/
theorem C8_witness :
    runLoop ⟨true, true, 1, 10, 20⟩ ⟨⟨0, 0⟩, 4, 30⟩
        [⟨some ⟨0, 0, 1⟩, some ⟨1073741824, 0, 1⟩, some ⟨1, 0, 0, 0, 0, 0, 0, 0⟩⟩,
         ⟨some ⟨0, 0, 1⟩, some ⟨1073741824, 0, 1⟩, some ⟨1, 0, 0, 0, 0, 0, 0, 0⟩⟩] =
      some (⟨⟨1, 0⟩, 6, 32⟩,
        [[GlyphWrite.mk 8 4 '#', GlyphWrite.mk 19 30 ':'],
         [GlyphWrite.mk 8 5 '#', GlyphWrite.mk 19 31 ':']]) ∧
    memColsWritten [[GlyphWrite.mk 8 4 '#', GlyphWrite.mk 19 30 ':'],
        [GlyphWrite.mk 8 5 '#', GlyphWrite.mk 19 31 ':']] =
      (List.range 2).map (fun i : ℕ => (4 : ℤ) + (i : ℤ)) ∧
    cpuColsWritten [[GlyphWrite.mk 8 4 '#', GlyphWrite.mk 19 30 ':'],
        [GlyphWrite.mk 8 5 '#', GlyphWrite.mk 19 31 ':']] =
      (List.range 2).map (fun i : ℕ => (30 : ℤ) + (i : ℤ)) := by
  have hv : calculate_memory_used (some ⟨0, 0, 1⟩) (some ⟨1073741824, 0, 1⟩) =
      some 1 := by
    simp [calculate_memory_used, get_total_memory]
    norm_num
  have h1 : cpuUpdate ⟨0, 0⟩ ⟨1, 0, 0, 0, 0, 0, 0, 0⟩ = (⟨1, 0⟩, 0) := by
    rw [cpuUpdate_first]
    norm_num [CpuSnapshot.total, CpuSnapshot.idleTotal, Prod.ext_iff,
      TrackerState.mk.injEq]
  have h2 : cpuUpdate ⟨1, 0⟩ ⟨1, 0, 0, 0, 0, 0, 0, 0⟩ = (⟨1, 0⟩, 0) := by
    rw [cpuUpdate_degenerate _ _ (by norm_num)
      (Or.inl (by norm_num [CpuSnapshot.total, CpuSnapshot.idleTotal]))]
    norm_num [CpuSnapshot.total, CpuSnapshot.idleTotal, Prod.ext_iff,
      TrackerState.mk.injEq]
  have t1 : sampleTick ⟨true, true, 1, 10, 20⟩ ⟨⟨0, 0⟩, 4, 30⟩
      ⟨some ⟨0, 0, 1⟩, some ⟨1073741824, 0, 1⟩, some ⟨1, 0, 0, 0, 0, 0, 0, 0⟩⟩ =
      some (⟨⟨1, 0⟩, 5, 31⟩, [GlyphWrite.mk 8 4 '#', GlyphWrite.mk 19 30 ':']) := by
    norm_num [sampleTick, hv, calculate_cpu_utilization, h1, truncInt_zero,
      truncInt_one]
  have t2 : sampleTick ⟨true, true, 1, 10, 20⟩ ⟨⟨1, 0⟩, 5, 31⟩
      ⟨some ⟨0, 0, 1⟩, some ⟨1073741824, 0, 1⟩, some ⟨1, 0, 0, 0, 0, 0, 0, 0⟩⟩ =
      some (⟨⟨1, 0⟩, 6, 32⟩, [GlyphWrite.mk 8 5 '#', GlyphWrite.mk 19 31 ':']) := by
    norm_num [sampleTick, hv, calculate_cpu_utilization, h2, truncInt_zero,
      truncInt_one]
  have heval : runLoop ⟨true, true, 1, 10, 20⟩ ⟨⟨0, 0⟩, 4, 30⟩
      [⟨some ⟨0, 0, 1⟩, some ⟨1073741824, 0, 1⟩, some ⟨1, 0, 0, 0, 0, 0, 0, 0⟩⟩,
       ⟨some ⟨0, 0, 1⟩, some ⟨1073741824, 0, 1⟩, some ⟨1, 0, 0, 0, 0, 0, 0, 0⟩⟩] =
      some (⟨⟨1, 0⟩, 6, 32⟩,
        [[GlyphWrite.mk 8 4 '#', GlyphWrite.mk 19 30 ':'],
         [GlyphWrite.mk 8 5 '#', GlyphWrite.mk 19 31 ':']]) := by
    simp [runLoop, t1, t2]
  refine ⟨heval, ?_, ?_⟩
  · exact (C8_monotonic_write_head _ _ _ _ _ heval).1 rfl
  · exact (C8_monotonic_write_head _ _ _ _ _ heval).2 rfl

end SysMonitor
